import Mathlib

/-!
Verification of the `lift::QueryBuilder` URL assembler
(`src/inc/lift/QueryBuilder.h`).

The builder accumulates borrowed URL parts (scheme, hostname, port, path
segments, query parameters, fragment) and `Build()` renders them into one
string, percent-encoding query values, then resets all state for reuse.

Caller-supplied text and the rendered output are modelled as byte
sequences (`List Nat`, each element a byte value), since the C++ code
operates on raw `std::string_view` bytes.
-/

namespace Lift

/-- A byte sequence, modelling the contents of a C++ `std::string_view`
or `std::string`. -/
abbrev Bytes := List Nat

/-- Convert a Lean string literal of ASCII text into its byte sequence,
for stating concrete scenarios. -/
def bytes (s : String) : Bytes := s.data.map Char.toNat

/-- The mutable state of `lift::QueryBuilder` (QueryBuilder.h lines
103–120): scheme, hostname, port (uint16_t, 0 = unset sentinel), ordered
path parts, ordered query-parameter pairs, fragment.  The
`std::stringstream m_query` output buffer is not part of the observable
state and is omitted. -/
structure QueryBuilder where
  m_scheme : Bytes
  m_hostname : Bytes
  m_port : Nat
  m_path_parts : List Bytes
  m_query_parameters : List (Bytes × Bytes)
  m_fragment : Bytes
  deriving Repr, DecidableEq

/-- Default construction (`QueryBuilder() = default`): every field starts
unset (empty views, port 0, empty vectors). -/
def QueryBuilder.init : QueryBuilder :=
  { m_scheme := [], m_hostname := [], m_port := 0,
    m_path_parts := [], m_query_parameters := [], m_fragment := [] }

/-- Modelled from the spec: the body of `QueryBuilder::SetScheme` is not
under src/ (only its declaration is).  Spec §4.1: stores the borrowed
scheme, overwriting any previously set scheme. -/
def SetScheme (qb : QueryBuilder) (scheme : Bytes) : QueryBuilder :=
  { qb with m_scheme := scheme }

/-- Modelled from the spec: the body of `QueryBuilder::SetHostname` is
not under src/.  Spec §4.1: stores the borrowed hostname, overwriting the
prior value, with no validation. -/
def SetHostname (qb : QueryBuilder) (hostname : Bytes) : QueryBuilder :=
  { qb with m_hostname := hostname }

/-- Modelled from the spec: the body of `QueryBuilder::SetPort` is not
under src/.  Spec §4.1: stores the 16-bit port value; 0 is treated as
unset on render. -/
def SetPort (qb : QueryBuilder) (port : Nat) : QueryBuilder :=
  { qb with m_port := port % 65536 }

/-- Modelled from the spec: the body of `QueryBuilder::AppendPathPart` is
not under src/.  Spec §4.1: appends one borrowed segment to the ordered
path list; repeated calls accumulate in call order. -/
def AppendPathPart (qb : QueryBuilder) (path_part : Bytes) : QueryBuilder :=
  { qb with m_path_parts := qb.m_path_parts ++ [path_part] }

/-- Modelled from the spec: the body of `QueryBuilder::AppendQueryParameter`
is not under src/.  Spec §4.1: appends one (key, value) pair to the
ordered query list in call order; the value stays raw here and is
percent-encoded at render time; duplicates are permitted. -/
def AppendQueryParameter (qb : QueryBuilder) (name value : Bytes) : QueryBuilder :=
  { qb with m_query_parameters := qb.m_query_parameters ++ [(name, value)] }

/-- Modelled from the spec: the body of `QueryBuilder::SetFragment` is
not under src/.  Spec §4.1: stores the borrowed fragment (without a
leading `#`, which the assembler adds), overwriting the prior value. -/
def SetFragment (qb : QueryBuilder) (fragment : Bytes) : QueryBuilder :=
  { qb with m_fragment := fragment }

/-- Modelled from the spec: the percent-encoding policy of §4.1 names the
unreserved characters that are never encoded: letters `A–Z a–z`, digits
`0–9`, and `-`, `_`, `.`, `~`. -/
def isUnreserved (b : Nat) : Bool :=
  (65 ≤ b && b ≤ 90) || (97 ≤ b && b ≤ 122) || (48 ≤ b && b ≤ 57) ||
    b == 45 || b == 95 || b == 46 || b == 126

/-- Uppercase hexadecimal digit for a nibble value (spec §4.1 allows
either case, picked uppercase consistently). -/
def hexDigit (n : Nat) : Nat := if n < 10 then 48 + n else 55 + n

/-- Modelled from the spec: encoding of one byte of a query value
(§4.1): an unreserved byte is kept, every other byte becomes `%` plus
its two-digit hexadecimal value. -/
def escapeByte (b : Nat) : Bytes :=
  if isUnreserved b then [b] else [37, hexDigit (b / 16), hexDigit (b % 16)]

/-- Modelled from the spec: the escaping applied to a whole query value
in `Build` (§4.1), byte by byte on the raw bytes. -/
def httpEscape (v : Bytes) : Bytes := (v.map escapeByte).flatten

/-- Decimal rendering of the port number, as `Build` emits it. -/
def decimal (n : Nat) : Bytes := (Nat.toDigits 10 n).map Char.toNat

/-- Scheme portion of the rendered URL: spec §4.1 step 1, if the scheme
is set (non-empty, §3: empty = omitted) emit it followed by `://`. -/
def schemePart (qb : QueryBuilder) : Bytes :=
  if qb.m_scheme = [] then [] else qb.m_scheme ++ bytes "://"

/-- Hostname portion: spec §4.1 step 2, if the hostname is set emit it. -/
def hostnamePart (qb : QueryBuilder) : Bytes :=
  if qb.m_hostname = [] then [] else qb.m_hostname

/-- Port portion: spec §4.1 step 3, if the port is set (non-zero) emit
`:` followed by the decimal port. -/
def portPart (qb : QueryBuilder) : Bytes :=
  if qb.m_port = 0 then [] else 58 :: decimal qb.m_port

/-- Path portion: spec §4.1 step 4, for each path segment in insertion
order emit `/` followed by the segment text verbatim. -/
def pathPart (qb : QueryBuilder) : Bytes :=
  (qb.m_path_parts.map (fun p => 47 :: p)).flatten

/-- Query portion: spec §4.1 step 5, if the query-parameter list is
non-empty emit `?`, then each pair in insertion order as `name=` followed
by the percent-encoded value, successive pairs joined with `&`. -/
def queryPart (qb : QueryBuilder) : Bytes :=
  if qb.m_query_parameters = [] then []
  else 63 :: List.intercalate [38]
    (qb.m_query_parameters.map (fun nv => nv.1 ++ 61 :: httpEscape nv.2))

/-- Fragment portion: spec §4.1 step 6, if the fragment is set emit `#`
followed by the fragment text verbatim. -/
def fragmentPart (qb : QueryBuilder) : Bytes :=
  if qb.m_fragment = [] then [] else 35 :: qb.m_fragment

/-- Modelled from the spec: the body of `QueryBuilder::Build` is not
under src/.  Spec §4.1 serialization algorithm, fixed field order:
scheme, host, port, path, query, fragment. -/
def buildString (qb : QueryBuilder) : Bytes :=
  schemePart qb ++ hostnamePart qb ++ portPart qb ++ pathPart qb ++
    queryPart qb ++ fragmentPart qb

/-- Modelled from the spec: the body of `QueryBuilder::reset` is not
under src/.  Spec §3 lifecycle: unconditionally clears every field back
to its unset state. -/
def reset (_ : QueryBuilder) : QueryBuilder := QueryBuilder.init

/-- Modelled from the spec: the body of `QueryBuilder::Build` is not
under src/.  It renders the URL and resets the builder, returning the
rendered string together with the post-call state. -/
def Build (qb : QueryBuilder) : Bytes × QueryBuilder :=
  (buildString qb, reset qb)

/-- Value of one hexadecimal digit byte (either case), used by the
standard percent-decoder against which the encoding is checked. -/
def hexVal (c : Nat) : Option Nat :=
  if 48 ≤ c ∧ c ≤ 57 then some (c - 48)
  else if 65 ≤ c ∧ c ≤ 70 then some (c - 55)
  else if 97 ≤ c ∧ c ≤ 102 then some (c - 87)
  else none

/-- Standard percent-decoding: `%` followed by two hexadecimal digits
becomes the byte with that value, every other byte maps to itself; a
malformed escape fails.  This is the reference decoder for the
round-trip property, not code of the repository. -/
def percentDecode : Bytes → Option Bytes
  | [] => some []
  | b :: rest =>
    if b = 37 then
      match rest with
      | h :: l :: rest2 =>
        match hexVal h, hexVal l with
        | some hv, some lv => (percentDecode rest2).map (fun d => (16 * hv + lv) :: d)
        | _, _ => none
      | _ => none
    else (percentDecode rest).map (fun d => b :: d)

end Lift

namespace Lift

set_option maxRecDepth 8000

/-- Claim C1: on a freshly constructed (or freshly reset) builder, the
chain SetScheme "https", SetHostname "example.com", AppendPathPart "a",
AppendPathPart "b", AppendQueryParameter "q" "hello world",
SetFragment "top", Build yields exactly
"https://example.com/a/b?q=hello%20world#top"; reset always yields the
fresh state, so freshly reset and freshly constructed coincide. -/
theorem C1_concrete_scenario (qb : QueryBuilder) :
    reset qb = QueryBuilder.init ∧
    (Build (SetFragment (AppendQueryParameter (AppendPathPart (AppendPathPart
      (SetHostname (SetScheme QueryBuilder.init (bytes "https"))
        (bytes "example.com")) (bytes "a")) (bytes "b"))
      (bytes "q") (bytes "hello world")) (bytes "top"))).1 =
    bytes "https://example.com/a/b?q=hello%20world#top" :=
  ⟨rfl, by decide⟩

/-- Hexadecimal digit bytes are at least 48, in particular never the
plus-sign byte 43. -/
lemma hexDigit_gt43 (n : Nat) : 43 < hexDigit n := by
  unfold hexDigit
  split <;> omega

/-- Claim C2: for every byte value 0–255, the encoding leaves unreserved
bytes unchanged and replaces every other byte with a percent sign
followed by its two-digit hexadecimal value; the space byte becomes %20
and the plus sign byte 43 never appears in an encoded byte. -/
theorem C2_percent_encoding_policy : ∀ b : Nat, b < 256 →
    (isUnreserved b = true → escapeByte b = [b]) ∧
    (isUnreserved b = false →
      escapeByte b = [37, hexDigit (b / 16), hexDigit (b % 16)] ∧ escapeByte b ≠ [b]) ∧
    escapeByte 32 = bytes "%20" ∧ 43 ∉ escapeByte b := by
  intro b _
  refine ⟨fun h => by simp [escapeByte, h],
          fun h => ⟨by simp [escapeByte, h], by simp [escapeByte, h]⟩,
          by decide, ?_⟩
  by_cases h : isUnreserved b
  · intro hmem
    rw [show escapeByte b = [b] from by simp [escapeByte, h]] at hmem
    simp at hmem
    subst hmem
    exact absurd h (by decide)
  · intro hmem
    rw [show escapeByte b = [37, hexDigit (b / 16), hexDigit (b % 16)] from by
      simp [escapeByte, h]] at hmem
    have g1 := hexDigit_gt43 (b / 16)
    have g2 := hexDigit_gt43 (b % 16)
    rcases List.mem_cons.mp hmem with h1 | hmem2
    · omega
    rcases List.mem_cons.mp hmem2 with h1 | hmem3
    · omega
    rcases List.mem_cons.mp hmem3 with h1 | hmem4
    · omega
    exact List.not_mem_nil 43 hmem4

theorem C2_percent_encoding_policy_witness :
    (32 : Nat) < 256 ∧ 43 ∉ escapeByte 32 :=
  ⟨by decide, (C2_percent_encoding_policy 32 (by decide)).2.2.2⟩

/-- Claim C3: Build unconditionally resets every field; Build twice in a
row renders the empty string the second time, and after a Build, setting
only a hostname and building again yields exactly that hostname, with no
path, query, or fragment leaked from the previous build. -/
theorem C3_build_resets_state (qb : QueryBuilder) (h : Bytes) :
    (Build (Build qb).2).1 = [] ∧
    (Build (SetHostname (Build qb).2 h)).1 = h := by
  refine ⟨rfl, ?_⟩
  by_cases hh : h = [] <;>
    simp [Build, buildString, SetHostname, reset, QueryBuilder.init,
      schemePart, hostnamePart, portPart, pathPart, queryPart, fragmentPart, hh]

/-- Claim C4: whenever a scheme and a hostname are set (non-empty), the
Build output starts with the scheme, "://", and the hostname, followed by
":" and the decimal port exactly when the port is non-zero (0 is the
unset sentinel), and then the remaining path, query, and fragment
portions. -/
theorem C4_scheme_host_port_prefix (qb : QueryBuilder)
    (hs : qb.m_scheme ≠ []) (hh : qb.m_hostname ≠ []) :
    (Build qb).1 = qb.m_scheme ++ bytes "://" ++ qb.m_hostname ++
      (if qb.m_port = 0 then [] else 58 :: decimal qb.m_port) ++
      pathPart qb ++ queryPart qb ++ fragmentPart qb := by
  simp [Build, buildString, schemePart, hostnamePart, portPart, hs, hh]

theorem C4_scheme_host_port_prefix_witness :
    (Build (SetPort (SetHostname (SetScheme QueryBuilder.init (bytes "http"))
        (bytes "x")) 80)).1 =
      (SetPort (SetHostname (SetScheme QueryBuilder.init (bytes "http"))
        (bytes "x")) 80).m_scheme ++ bytes "://" ++
      (SetPort (SetHostname (SetScheme QueryBuilder.init (bytes "http"))
        (bytes "x")) 80).m_hostname ++
      (if (SetPort (SetHostname (SetScheme QueryBuilder.init (bytes "http"))
        (bytes "x")) 80).m_port = 0 then []
       else 58 :: decimal (SetPort (SetHostname (SetScheme QueryBuilder.init
        (bytes "http")) (bytes "x")) 80).m_port) ++
      pathPart (SetPort (SetHostname (SetScheme QueryBuilder.init (bytes "http"))
        (bytes "x")) 80) ++
      queryPart (SetPort (SetHostname (SetScheme QueryBuilder.init (bytes "http"))
        (bytes "x")) 80) ++
      fragmentPart (SetPort (SetHostname (SetScheme QueryBuilder.init (bytes "http"))
        (bytes "x")) 80) :=
  C4_scheme_host_port_prefix _ (by decide) (by decide)

/-- Claim C8: every operation is total; for every state, including
structurally invalid combinations such as a port set without a hostname
or a path segment containing a slash, Build succeeds and returns exactly
the string the serialization algorithm yields. -/
theorem C8_operations_total (qb : QueryBuilder) :
    Build qb = (buildString qb, QueryBuilder.init) ∧
    (Build (SetPort QueryBuilder.init 8080)).1 = 58 :: decimal 8080 ∧
    (Build (AppendPathPart QueryBuilder.init (bytes "a/b"))).1 = bytes "/a/b" :=
  ⟨rfl, by decide, by decide⟩

/-- Claim C9: each setter overwrites only its own field and each appender
only extends its own sequence, leaving every other field unchanged. -/
theorem C9_frame_conditions (qb : QueryBuilder) (t n v : Bytes) (p : Nat) :
    ((SetScheme qb t).m_scheme = t ∧
     (SetScheme qb t).m_hostname = qb.m_hostname ∧
     (SetScheme qb t).m_port = qb.m_port ∧
     (SetScheme qb t).m_path_parts = qb.m_path_parts ∧
     (SetScheme qb t).m_query_parameters = qb.m_query_parameters ∧
     (SetScheme qb t).m_fragment = qb.m_fragment) ∧
    ((SetHostname qb t).m_hostname = t ∧
     (SetHostname qb t).m_scheme = qb.m_scheme ∧
     (SetHostname qb t).m_port = qb.m_port ∧
     (SetHostname qb t).m_path_parts = qb.m_path_parts ∧
     (SetHostname qb t).m_query_parameters = qb.m_query_parameters ∧
     (SetHostname qb t).m_fragment = qb.m_fragment) ∧
    ((SetPort qb p).m_port = p % 65536 ∧
     (SetPort qb p).m_scheme = qb.m_scheme ∧
     (SetPort qb p).m_hostname = qb.m_hostname ∧
     (SetPort qb p).m_path_parts = qb.m_path_parts ∧
     (SetPort qb p).m_query_parameters = qb.m_query_parameters ∧
     (SetPort qb p).m_fragment = qb.m_fragment) ∧
    ((SetFragment qb t).m_fragment = t ∧
     (SetFragment qb t).m_scheme = qb.m_scheme ∧
     (SetFragment qb t).m_hostname = qb.m_hostname ∧
     (SetFragment qb t).m_port = qb.m_port ∧
     (SetFragment qb t).m_path_parts = qb.m_path_parts ∧
     (SetFragment qb t).m_query_parameters = qb.m_query_parameters) ∧
    ((AppendPathPart qb t).m_path_parts = qb.m_path_parts ++ [t] ∧
     (AppendPathPart qb t).m_scheme = qb.m_scheme ∧
     (AppendPathPart qb t).m_hostname = qb.m_hostname ∧
     (AppendPathPart qb t).m_port = qb.m_port ∧
     (AppendPathPart qb t).m_query_parameters = qb.m_query_parameters ∧
     (AppendPathPart qb t).m_fragment = qb.m_fragment) ∧
    ((AppendQueryParameter qb n v).m_query_parameters
        = qb.m_query_parameters ++ [(n, v)] ∧
     (AppendQueryParameter qb n v).m_scheme = qb.m_scheme ∧
     (AppendQueryParameter qb n v).m_hostname = qb.m_hostname ∧
     (AppendQueryParameter qb n v).m_port = qb.m_port ∧
     (AppendQueryParameter qb n v).m_path_parts = qb.m_path_parts ∧
     (AppendQueryParameter qb n v).m_fragment = qb.m_fragment) :=
  ⟨⟨rfl, rfl, rfl, rfl, rfl, rfl⟩, ⟨rfl, rfl, rfl, rfl, rfl, rfl⟩,
   ⟨rfl, rfl, rfl, rfl, rfl, rfl⟩, ⟨rfl, rfl, rfl, rfl, rfl, rfl⟩,
   ⟨rfl, rfl, rfl, rfl, rfl, rfl⟩, ⟨rfl, rfl, rfl, rfl, rfl, rfl⟩⟩

/-- Claim C10: supplying empty text to SetScheme, SetHostname, or
SetFragment un-sets the field even after a non-empty set, and Build then
omits the field together with its structural separator ("://" for the
scheme, "#" for the fragment). -/
theorem C10_empty_means_unset (qb : QueryBuilder) (a : Bytes) :
    SetScheme (SetScheme qb a) [] = SetScheme qb [] ∧
    SetHostname (SetHostname qb a) [] = SetHostname qb [] ∧
    SetFragment (SetFragment qb a) [] = SetFragment qb [] ∧
    buildString (SetScheme qb []) =
      hostnamePart qb ++ portPart qb ++ pathPart qb ++ queryPart qb ++ fragmentPart qb ∧
    buildString (SetHostname qb []) =
      schemePart qb ++ portPart qb ++ pathPart qb ++ queryPart qb ++ fragmentPart qb ∧
    buildString (SetFragment qb []) =
      schemePart qb ++ hostnamePart qb ++ portPart qb ++ pathPart qb ++ queryPart qb := by
  refine ⟨rfl, rfl, rfl, ?_, ?_, ?_⟩ <;>
    simp [SetScheme, SetHostname, SetFragment, buildString,
      schemePart, hostnamePart, portPart, pathPart, queryPart, fragmentPart]

/-- Folding a list of segments through AppendPathPart appends them, in
order, to the path-part vector. -/
lemma foldl_appendPathPart (qb : QueryBuilder) (parts : List Bytes) :
    parts.foldl AppendPathPart qb =
      { qb with m_path_parts := qb.m_path_parts ++ parts } := by
  induction parts generalizing qb with
  | nil => simp
  | cons p ps ih => simp [AppendPathPart, ih]

/-- Claim C5: for every sequence of AppendPathPart calls, the segments
appear in the Build output in call order, each emitted verbatim and
preceded by exactly one slash (byte 47), between the scheme/host/port
prefix and the query/fragment suffix. -/
theorem C5_path_segments_in_order (qb : QueryBuilder) (parts : List Bytes) :
    (Build (parts.foldl AppendPathPart qb)).1 =
      schemePart qb ++ hostnamePart qb ++ portPart qb ++
        ((qb.m_path_parts ++ parts).map (fun p => 47 :: p)).flatten ++
        queryPart qb ++ fragmentPart qb := by
  rw [foldl_appendPathPart]
  simp [Build, buildString, schemePart, hostnamePart, portPart, pathPart,
    queryPart, fragmentPart]

/-- Folding a list of pairs through AppendQueryParameter appends them, in
order, to the query-parameter vector. -/
lemma foldl_appendQueryParameter (qb : QueryBuilder) (pairs : List (Bytes × Bytes)) :
    pairs.foldl (fun b nv => AppendQueryParameter b nv.1 nv.2) qb =
      { qb with m_query_parameters := qb.m_query_parameters ++ pairs } := by
  induction pairs generalizing qb with
  | nil => simp
  | cons p ps ih =>
    rw [List.foldl_cons, ih]
    simp [AppendQueryParameter]

/-- Claim C6: for every sequence of AppendQueryParameter calls on a
builder with no pairs yet, the rendered pairs appear in call order, each
as the unescaped name, then the equals-sign byte 61, then the
percent-encoded value; the first pair is preceded by exactly one
question-mark byte 63, successive pairs are joined with the ampersand
byte 38, and without pairs no question mark is emitted. -/
theorem C6_query_pairs_in_order (qb : QueryBuilder) (pairs : List (Bytes × Bytes))
    (hq : qb.m_query_parameters = []) :
    (Build (pairs.foldl (fun b nv => AppendQueryParameter b nv.1 nv.2) qb)).1 =
      schemePart qb ++ hostnamePart qb ++ portPart qb ++ pathPart qb ++
        (if pairs = [] then []
         else 63 :: List.intercalate [38]
           (pairs.map (fun nv => nv.1 ++ 61 :: httpEscape nv.2))) ++
        fragmentPart qb := by
  rw [foldl_appendQueryParameter]
  simp [Build, buildString, schemePart, hostnamePart, portPart, pathPart,
    queryPart, fragmentPart, hq]

theorem C6_query_pairs_in_order_witness :
    (Build (([(bytes "q", bytes "h w")] : List (Bytes × Bytes)).foldl
      (fun b nv => AppendQueryParameter b nv.1 nv.2) QueryBuilder.init)).1 =
      bytes "?q=h%20w" := by
  rw [C6_query_pairs_in_order QueryBuilder.init [(bytes "q", bytes "h w")] rfl]
  decide

/-- An unreserved byte is never the percent sign 37. -/
lemma isUnreserved_ne37 (b : Nat) (h : isUnreserved b = true) : b ≠ 37 := by
  intro heq
  subst heq
  exact absurd h (by decide)

/-- The uppercase hexadecimal digit of a nibble decodes back to it. -/
lemma hexVal_hexDigit : ∀ n : Nat, n < 16 → hexVal (hexDigit n) = some n := by
  intro n h
  unfold hexDigit hexVal
  by_cases h10 : n < 10
  · rw [if_pos h10, if_pos ⟨by omega, by omega⟩]
    simp only [Option.some.injEq]
    omega
  · rw [if_neg h10, if_neg (by omega), if_pos ⟨by omega, by omega⟩]
    simp only [Option.some.injEq]
    omega

/-- Decoding a byte other than the percent sign keeps it and continues. -/
lemma percentDecode_cons (b : Nat) (t : Bytes) (hb : b ≠ 37) :
    percentDecode (b :: t) = (percentDecode t).map (fun d => b :: d) := by
  rw [percentDecode.eq_def]
  simp [hb]

/-- Decoding a percent sign followed by two valid hexadecimal digits
yields the encoded byte and continues. -/
lemma percentDecode_pct (h l : Nat) (t : Bytes) (x y : Nat)
    (hh : hexVal h = some x) (hl : hexVal l = some y) :
    percentDecode (37 :: h :: l :: t) =
      (percentDecode t).map (fun d => (16 * x + y) :: d) := by
  simp [percentDecode, hh, hl]

/-- Claim C7: percent-encoding round-trips; for every byte sequence
supplied as a query value, standard percent-decoding of the encoded
value reproduces the original bytes exactly. -/
theorem C7_encoding_round_trip (v : Bytes) (hv : ∀ b ∈ v, b < 256) :
    percentDecode (httpEscape v) = some v := by
  induction v with
  | nil => rfl
  | cons b t ih =>
    have hb : b < 256 := hv b (List.mem_cons_self b t)
    have ht := ih (fun x hx => hv x (List.mem_cons_of_mem b hx))
    have hesc : httpEscape (b :: t) = escapeByte b ++ httpEscape t := by
      simp [httpEscape]
    rw [hesc]
    by_cases hu : isUnreserved b
    · rw [show escapeByte b = [b] from by simp [escapeByte, hu]]
      rw [List.singleton_append, percentDecode_cons b _ (isUnreserved_ne37 b hu), ht]
      rfl
    · have hb16 : b / 16 < 16 := by omega
      have hbm : b % 16 < 16 := Nat.mod_lt b (by norm_num)
      rw [show escapeByte b = [37, hexDigit (b / 16), hexDigit (b % 16)] from by
        simp [escapeByte, hu]]
      rw [show ([37, hexDigit (b / 16), hexDigit (b % 16)] : Bytes) ++ httpEscape t =
        37 :: hexDigit (b / 16) :: hexDigit (b % 16) :: httpEscape t from rfl]
      rw [percentDecode_pct _ _ _ _ _ (hexVal_hexDigit _ hb16) (hexVal_hexDigit _ hbm),
        ht]
      have hb2 : 16 * (b / 16) + b % 16 = b := by omega
      rw [hb2]
      rfl

theorem C7_encoding_round_trip_witness :
    (∀ b ∈ bytes "hello world", b < 256) ∧
    percentDecode (httpEscape (bytes "hello world")) = some (bytes "hello world") :=
  ⟨by decide, C7_encoding_round_trip (bytes "hello world") (by decide)⟩

end Lift
